import Mathlib

/-!
Verification of the gate-level combinational logic engine: primitive Boolean
gates (gates.py), the integrated-circuit abstraction (integrated_circuit.py)
and the IC7447 BCD-to-seven-segment decoder netlist
(bcd_to_seven_seg_converter.py).

The embedding has two layers.

Layer 1 models Python dynamic values, so that the runtime type checks of
gates.py and integrated_circuit.py (boolean-terminal enforcement, the
power/ground typechecker) can be stated faithfully, including their behavior
on non-Boolean inputs.

Layer 2 models the IC7447 netlist over Bool: every statement of interGates,
inputs, setUP, outputs and process is transcribed one-for-one as a state
update on a record holding every gate terminal and the pin map. The decoder
claims quantify only over Boolean inputs, on which the layer-1 gate outputs
coincide with the Bool-level outputs (bridge lemmas below).
-/

/-- Python runtime value, restricted to the types that occur at gate
terminals and power rails in the repository: None, bool, int, str. -/
inductive PyVal where
  | none : PyVal
  | bool (b : Bool) : PyVal
  | int (n : Int) : PyVal
  | str (s : String) : PyVal
deriving DecidableEq, Repr

/-- Python type tags, for modelling expressions such as type(x) == bool. -/
inductive PyType where
  | noneT | boolT | intT | strT
deriving DecidableEq, Repr

/-- Python type(v). -/
def typeOf : PyVal → PyType
  | .none => .noneT
  | .bool _ => .boolT
  | .int _ => .intT
  | .str _ => .strT

/-- Python truthiness bool(v): None and zero and the empty string are falsy. -/
def pyTruthy : PyVal → Bool
  | .none => false
  | .bool b => b
  | .int n => n != 0
  | .str s => s != ""

/-- Whether the value is a Python bool: models type(v) is type(bool()). -/
def isBool (v : PyVal) : Bool := typeOf v == PyType.boolT

/-- Result of Gate.check_type in gates.py: a pair of type checks for
two-input gates, a single check when the second terminal is None. -/
inductive CheckResult where
  | pair (a b : Bool) : CheckResult
  | single (a : Bool) : CheckResult
deriving DecidableEq, Repr

/-- Gate.check_type(terminal_1, terminal_2=None): if terminal_2 != None it
returns the tuple of boolean-type checks, otherwise the single check of
terminal_1. -/
def Gate.check_type (terminal_1 : PyVal) (terminal_2 : PyVal := PyVal.none) :
    CheckResult :=
  match terminal_2 with
  | .none => .single (isBool terminal_1)
  | _ => .pair (isBool terminal_1) (isBool terminal_2)

/-- Python comparison of a check_type result with the tuple (True, True); a
single bool compared with a tuple is unequal. -/
def CheckResult.eqPairTT : CheckResult → Bool
  | .pair a b => a && b
  | .single _ => false

/-- Python comparison of a check_type result with (True), which is just the
value True; a tuple compared with a bool is unequal. -/
def CheckResult.eqTrue : CheckResult → Bool
  | .single a => a
  | .pair _ _ => false

/-- State of a gate object: trace id and the two input terminals. Python
gates always carry both attributes; single-input gates leave termi2 at the
constructor default False. -/
structure PG where
  number : Int
  termi1 : PyVal
  termi2 : PyVal
deriving DecidableEq, Repr

/-- Gate.__init__(number, termi1=False, termi2=False): accepts the terminals
only when check_type returns (True, True), else raises TypeError. The Python
error message interpolates the terminal types; the message text is elided. -/
def Gate.init (number : Int) (termi1 : PyVal := .bool false)
    (termi2 : PyVal := .bool false) : Except String PG :=
  if (Gate.check_type termi1 termi2).eqPairTT then
    .ok ⟨number, termi1, termi2⟩
  else
    .error "INPUT TERMINAL VALUE NOT BOOLEAN"

/-- OrGate.__init__ delegates to Gate.__init__. -/
def OrGate.init (number : Int) (termi1 : PyVal := .bool false)
    (termi2 : PyVal := .bool false) : Except String PG :=
  Gate.init number termi1 termi2

/-- AndGate.__init__ delegates to Gate.__init__. -/
def AndGate.init (number : Int) (termi1 : PyVal := .bool false)
    (termi2 : PyVal := .bool false) : Except String PG :=
  Gate.init number termi1 termi2

/-- NotGate.__init__(number, termi1=False) passes only termi1; the second
terminal takes the Gate.__init__ default False. -/
def NotGate.init (number : Int) (termi1 : PyVal := .bool false) :
    Except String PG :=
  Gate.init number termi1

/-- Buffer.__init__(number, termi1=False) passes only termi1. -/
def Buffer.init (number : Int) (termi1 : PyVal := .bool false) :
    Except String PG :=
  Gate.init number termi1

/-- NOrGate.__init__ delegates to Gate.__init__. -/
def NOrGate.init (number : Int) (termi1 : PyVal := .bool false)
    (termi2 : PyVal := .bool false) : Except String PG :=
  Gate.init number termi1 termi2

/-- NAndGate.__init__ delegates to Gate.__init__. -/
def NAndGate.init (number : Int) (termi1 : PyVal := .bool false)
    (termi2 : PyVal := .bool false) : Except String PG :=
  Gate.init number termi1 termi2

/-- XNOrGate.__init__ delegates to Gate.__init__. -/
def XNOrGate.init (number : Int) (termi1 : PyVal := .bool false)
    (termi2 : PyVal := .bool false) : Except String PG :=
  Gate.init number termi1 termi2

/-- XNAndGate.__init__ delegates to Gate.__init__. -/
def XNAndGate.init (number : Int) (termi1 : PyVal := .bool false)
    (termi2 : PyVal := .bool false) : Except String PG :=
  Gate.init number termi1 termi2

/-- OrGate.output: re-checks both terminals, then returns
True if (bool(termi1) or bool(termi2)) else False. -/
def OrGate.output (g : PG) : Except String Bool :=
  if (Gate.check_type g.termi1 g.termi2).eqPairTT then
    .ok (if pyTruthy g.termi1 || pyTruthy g.termi2 then true else false)
  else
    .error "INPUT TERMINAL VALUE NOT BOOLEAN"

/-- AndGate.output: re-checks both terminals, then returns
True if (bool(termi1) and bool(termi2)) else False. -/
def AndGate.output (g : PG) : Except String Bool :=
  if (Gate.check_type g.termi1 g.termi2).eqPairTT then
    .ok (if pyTruthy g.termi1 && pyTruthy g.termi2 then true else false)
  else
    .error "INPUT TERMINAL VALUE NOT BOOLEAN"

/-- NotGate.output: checks only termi1 (single-input path of check_type),
then returns (not True) if bool(termi1) else (not False). -/
def NotGate.output (g : PG) : Except String Bool :=
  if (Gate.check_type g.termi1).eqTrue then
    .ok (if pyTruthy g.termi1 then false else true)
  else
    .error "INPUT TERMINAL VALUE NOT BOOLEAN"

/-- Buffer.output: checks only termi1, then returns
True if bool(termi1) else False. -/
def Buffer.output (g : PG) : Except String Bool :=
  if (Gate.check_type g.termi1).eqTrue then
    .ok (if pyTruthy g.termi1 then true else false)
  else
    .error "INPUT TERMINAL VALUE NOT BOOLEAN"

/-- NOrGate.output: re-checks both terminals, then returns
(not True) if (bool(termi1) or bool(termi2)) else (not False). -/
def NOrGate.output (g : PG) : Except String Bool :=
  if (Gate.check_type g.termi1 g.termi2).eqPairTT then
    .ok (if pyTruthy g.termi1 || pyTruthy g.termi2 then false else true)
  else
    .error "INPUT TERMINAL VALUE NOT BOOLEAN"

/-- NAndGate.output: re-checks both terminals, then returns
False if (bool(termi1) and bool(termi2)) else True. -/
def NAndGate.output (g : PG) : Except String Bool :=
  if (Gate.check_type g.termi1 g.termi2).eqPairTT then
    .ok (if pyTruthy g.termi1 && pyTruthy g.termi2 then false else true)
  else
    .error "INPUT TERMINAL VALUE NOT BOOLEAN"

/-- XNOrGate.output: re-checks both terminals, then returns
True if (bool(termi1) is bool(termi2)) else False; identity of Python bools
coincides with equality. -/
def XNOrGate.output (g : PG) : Except String Bool :=
  if (Gate.check_type g.termi1 g.termi2).eqPairTT then
    .ok (if pyTruthy g.termi1 == pyTruthy g.termi2 then true else false)
  else
    .error "INPUT TERMINAL VALUE NOT BOOLEAN"

/-- XNAndGate.output: textually the same body as NAndGate.output in the
source: False if (bool(termi1) and bool(termi2)) else True. -/
def XNAndGate.output (g : PG) : Except String Bool :=
  if (Gate.check_type g.termi1 g.termi2).eqPairTT then
    .ok (if pyTruthy g.termi1 && pyTruthy g.termi2 then false else true)
  else
    .error "INPUT TERMINAL VALUE NOT BOOLEAN"

/-- Whether an Except result is an error (a raised exception). -/
def isErr {α : Type} : Except String α → Bool
  | .error _ => true
  | .ok _ => false

/-- Python truthiness of a class object: classes such as those returned by
type(x) are always truthy. Used to model the expression
type(para1) and type(para2) == bool, whose left conjunct is the class
object itself, not a type comparison. -/
def classTruthy (_ : PyType) : Bool := true

/-- IC.typechecker(para1, para2) in integrated_circuit.py:
True if type(para1) and type(para2) == bool else False. By Python operator
precedence this is type(para1) and (type(para2) == bool); since the class
object type(para1) is always truthy, the result is just type(para2) == bool
and para1 is never actually checked. -/
def IC.typechecker (para1 para2 : PyVal) : Bool :=
  if classTruthy (typeOf para1) && (typeOf para2 == PyType.boolT) then
    true
  else
    false

/-- State of an IC object after construction: power rail, ground flag and
package terminal count. The pin dictionary starts empty. -/
structure ICBase where
  pwr : PyVal
  gnd : PyVal
  number_of_terminals : Nat
deriving DecidableEq, Repr

/-- IC.__init__(pwr, gnd, number_of_terminals): stores the rails when
typechecker(pwr, gnd) holds, else raises TypeError. -/
def IC.init (pwr gnd : PyVal) (number_of_terminals : Nat) :
    Except String ICBase :=
  if IC.typechecker pwr gnd then
    .ok ⟨pwr, gnd, number_of_terminals⟩
  else
    .error "TypeError"

/-- State of an IC_7447 object after construction: the base IC state plus
the four BCD input attributes, which the subclass constructor stores
without any type check of its own. -/
structure IC7447Base where
  base : ICBase
  D : PyVal
  C : PyVal
  B : PyVal
  A : PyVal
deriving DecidableEq, Repr

/-- IC_7447.__init__(pwr, gnd, number_of_terminals, D, C, B, A): calls
super().__init__(pwr, gnd, number_of_terminals), whose TypeError (if any)
propagates; then stores A, B, C, D and re-stores the rails, and initializes
the pin map all LOW via IC.terminal_identify. -/
def IC7447.initObj (pwr gnd : PyVal) (number_of_terminals : Nat)
    (D C B A : PyVal) : Except String IC7447Base :=
  match IC.init pwr gnd number_of_terminals with
  | .ok b => .ok ⟨b, D, C, B, A⟩
  | .error e => .error e


/-- Bool-level state of one gate inside the IC7447 netlist: trace id and the
two input terminals. Inside the decoder every terminal always holds a
Python bool, so the terminals are modelled as Bool; the bridge lemmas below
relate each Bool-level output to the corresponding PyVal-level output. -/
structure GateSt where
  number : Int := 0
  termi1 : Bool := false
  termi2 : Bool := false
deriving DecidableEq, Repr

/-- Bool-level OrGate.output on bool terminals. -/
def orOut (g : GateSt) : Bool := g.termi1 || g.termi2

/-- Bool-level AndGate.output on bool terminals. -/
def andOut (g : GateSt) : Bool := g.termi1 && g.termi2

/-- Bool-level NotGate.output on a bool terminal. -/
def notOut (g : GateSt) : Bool := !g.termi1

/-- Bool-level Buffer.output on a bool terminal. -/
def bufOut (g : GateSt) : Bool := g.termi1

/-- Bool-level NOrGate.output on bool terminals. -/
def norOut (g : GateSt) : Bool := !(g.termi1 || g.termi2)

/-- Bool-level NAndGate.output on bool terminals. -/
def nandOut (g : GateSt) : Bool := !(g.termi1 && g.termi2)

/-- The 16-entry pin dictionary of a DIP-16 package, produced by
IC.terminal_identify: keys "Pin1" to "Pin16", modelled as one Bool field per
declared pin. -/
structure Pins where
  pin1 : Bool := false
  pin2 : Bool := false
  pin3 : Bool := false
  pin4 : Bool := false
  pin5 : Bool := false
  pin6 : Bool := false
  pin7 : Bool := false
  pin8 : Bool := false
  pin9 : Bool := false
  pin10 : Bool := false
  pin11 : Bool := false
  pin12 : Bool := false
  pin13 : Bool := false
  pin14 : Bool := false
  pin15 : Bool := false
  pin16 : Bool := false
deriving DecidableEq, Repr

/-- IC.terminal_identify for the 16-pin package: every declared entry LOW. -/
def allLow : Pins := {}

/-- Full mutable state of an IC_7447 object during process(): one GateSt per
gate attribute declared in interGates, plus the pin dictionary. -/
structure ICSt where
  AA : GateSt := {}
  AB : GateSt := {}
  AC : GateSt := {}
  AD : GateSt := {}
  AE : GateSt := {}
  BA : GateSt := {}
  BB1_2 : GateSt := {}
  BB3 : GateSt := {}
  BB4 : GateSt := {}
  BB5 : GateSt := {}
  BB : GateSt := {}
  BC : GateSt := {}
  CA : GateSt := {}
  CB : GateSt := {}
  CC : GateSt := {}
  CD : GateSt := {}
  DA : GateSt := {}
  DB : GateSt := {}
  DC1_2 : GateSt := {}
  DC3 : GateSt := {}
  DC : GateSt := {}
  DD : GateSt := {}
  DE1_2 : GateSt := {}
  DE : GateSt := {}
  DF1_2 : GateSt := {}
  DF : GateSt := {}
  DH : GateSt := {}
  DI1_2 : GateSt := {}
  DI : GateSt := {}
  DJ1_2 : GateSt := {}
  DJ : GateSt := {}
  DK1_2 : GateSt := {}
  DK : GateSt := {}
  DL1_2 : GateSt := {}
  DL : GateSt := {}
  DM : GateSt := {}
  DP : GateSt := {}
  DQ : GateSt := {}
  DV : GateSt := {}
  DW1_2 : GateSt := {}
  DW : GateSt := {}
  DX1_2 : GateSt := {}
  DX : GateSt := {}
  DY1_2 : GateSt := {}
  DY3 : GateSt := {}
  DY : GateSt := {}
  EA1_2 : GateSt := {}
  EA : GateSt := {}
  EB1_2 : GateSt := {}
  EB : GateSt := {}
  EC : GateSt := {}
  ED1_2 : GateSt := {}
  ED : GateSt := {}
  EE : GateSt := {}
  EF1_2 : GateSt := {}
  EF : GateSt := {}
  EH : GateSt := {}
  pins : Pins := {}

/-- IC_7447.interGates: instantiate every internal gate fresh (terminals at
the constructor default LOW) with the trace ids of the source; no wiring.
The pin dictionary is untouched. -/
def IC7447.interGates (s : ICSt) : ICSt :=
  { pins := s.pins
    AA := ⟨1, false, false⟩
    AB := ⟨2, false, false⟩
    AC := ⟨3, false, false⟩
    AD := ⟨1, false, false⟩
    AE := ⟨1, false, false⟩
    BA := ⟨2, false, false⟩
    BB1_2 := ⟨1, false, false⟩
    BB3 := ⟨1, false, false⟩
    BB4 := ⟨1, false, false⟩
    BB5 := ⟨1, false, false⟩
    BB := ⟨1, false, false⟩
    BC := ⟨2, false, false⟩
    CA := ⟨4, false, false⟩
    CB := ⟨5, false, false⟩
    CC := ⟨6, false, false⟩
    CD := ⟨7, false, false⟩
    DA := ⟨1, false, false⟩
    DB := ⟨2, false, false⟩
    DC1_2 := ⟨3, false, false⟩
    DC3 := ⟨3, false, false⟩
    DC := ⟨3, false, false⟩
    DD := ⟨4, false, false⟩
    DE1_2 := ⟨5, false, false⟩
    DE := ⟨5, false, false⟩
    DF1_2 := ⟨6, false, false⟩
    DF := ⟨6, false, false⟩
    DH := ⟨7, false, false⟩
    DI1_2 := ⟨8, false, false⟩
    DI := ⟨8, false, false⟩
    DJ1_2 := ⟨9, false, false⟩
    DJ := ⟨9, false, false⟩
    DK1_2 := ⟨10, false, false⟩
    DK := ⟨10, false, false⟩
    DL1_2 := ⟨11, false, false⟩
    DL := ⟨11, false, false⟩
    DM := ⟨2, false, false⟩
    DP := ⟨12, false, false⟩
    DQ := ⟨13, false, false⟩
    DV := ⟨14, false, false⟩
    DW1_2 := ⟨15, false, false⟩
    DW := ⟨15, false, false⟩
    DX1_2 := ⟨16, false, false⟩
    DX := ⟨16, false, false⟩
    DY1_2 := ⟨17, false, false⟩
    DY3 := ⟨17, false, false⟩
    DY := ⟨17, false, false⟩
    EA1_2 := ⟨1, false, false⟩
    EA := ⟨1, false, false⟩
    EB1_2 := ⟨2, false, false⟩
    EB := ⟨2, false, false⟩
    EC := ⟨3, false, false⟩
    ED1_2 := ⟨4, false, false⟩
    ED := ⟨4, false, false⟩
    EE := ⟨5, false, false⟩
    EF1_2 := ⟨6, false, false⟩
    EF := ⟨6, false, false⟩
    EH := ⟨7, false, false⟩ }

/-- IC_7447.inputs with external BCD attributes D, C, B, A: writes the BCD
inputs into Pin7, Pin1, Pin2, Pin6, unconditionally writes LOW into Pin3
(LT) and Pin5 (RBI), then binds the just-written pin values to the Section A
and Section B gate terminals. One let per Python statement, in source
order. -/
def IC7447.inputs (D C B A : Bool) (s : ICSt) : ICSt :=
  let s : ICSt := { s with pins := { s.pins with pin7 := A } }
  let s : ICSt := { s with pins := { s.pins with pin1 := B } }
  let s : ICSt := { s with pins := { s.pins with pin2 := C } }
  let s : ICSt := { s with pins := { s.pins with pin6 := D } }
  let s : ICSt := { s with pins := { s.pins with pin3 := false } }
  let s : ICSt := { s with pins := { s.pins with pin5 := false } }
  let s : ICSt := { s with AA := { s.AA with termi1 := s.pins.pin7 } }
  let s : ICSt := { s with AB := { s.AB with termi1 := s.pins.pin1 } }
  let s : ICSt := { s with AC := { s.AC with termi1 := s.pins.pin2 } }
  let s : ICSt := { s with AD := { s.AD with termi1 := s.pins.pin6 } }
  let s : ICSt := { s with AE := { s.AE with termi1 := s.pins.pin3 } }
  let s : ICSt := { s with BB1_2 := { s.BB1_2 with termi1 := s.pins.pin3 } }
  let s : ICSt := { s with BB1_2 := { s.BB1_2 with termi2 := s.pins.pin5 } }
  let s : ICSt := { s with BC := { s.BC with termi1 := s.pins.pin5 } }
  s

/-- IC_7447.setUP: the routing phase, one let per Python statement in source
order. Derives the nets lineA to lineJ (each the output of a specific gate,
snapshotted at that point) and fans each out by assignment into downstream
gate terminals, then connects the staged sub reductions to the final pre
drivers. Includes the self-referential reassignment of BA.termi1 to lineB
at the end of the lineB distribution block. -/
def IC7447.setUP (s : ICSt) : ICSt :=
  let lineA := notOut s.AE
  let s : ICSt := { s with AA := { s.AA with termi2 := lineA } }
  let s : ICSt := { s with AB := { s.AB with termi2 := lineA } }
  let s : ICSt := { s with AC := { s.AC with termi2 := lineA } }
  let s : ICSt := { s with BB := { s.BB with termi1 := lineA } }
  let s : ICSt := { s with DY1_2 := { s.DY1_2 with termi1 := lineA } }
  let s : ICSt := { s with BB3 := { s.BB3 with termi1 := norOut s.BB1_2 } }
  let s : ICSt := { s with BB3 := { s.BB3 with termi2 := notOut s.AD } }
  let s : ICSt := { s with BB4 := { s.BB4 with termi1 := norOut s.BB3 } }
  let s : ICSt := { s with BB4 := { s.BB4 with termi2 := nandOut s.AC } }
  let s : ICSt := { s with BB5 := { s.BB5 with termi1 := norOut s.BB4 } }
  let s : ICSt := { s with BB5 := { s.BB5 with termi2 := nandOut s.AB } }
  let s : ICSt := { s with BB := { s.BB with termi1 := norOut s.BB5 } }
  let s : ICSt := { s with BB := { s.BB with termi2 := notOut s.AE } }
  let s : ICSt := { s with BA := { s.BA with termi1 := norOut s.BB } }
  let lineB := notOut s.BA
  let s : ICSt := { s with CA := { s.CA with termi2 := lineB } }
  let s : ICSt := { s with CB := { s.CB with termi2 := lineB } }
  let s : ICSt := { s with CC := { s.CC with termi2 := lineB } }
  let s : ICSt := { s with CD := { s.CD with termi2 := lineB } }
  let s : ICSt := { s with BA := { s.BA with termi1 := lineB } }
  let s : ICSt := { s with CB := { s.CB with termi1 := nandOut s.AB } }
  let lineC := nandOut s.CB
  let s : ICSt := { s with DA := { s.DA with termi1 := lineC } }
  let s : ICSt := { s with DD := { s.DD with termi1 := lineC } }
  let s : ICSt := { s with DF1_2 := { s.DF1_2 with termi2 := lineC } }
  let s : ICSt := { s with DI1_2 := { s.DI1_2 with termi2 := lineC } }
  let s : ICSt := { s with DL1_2 := { s.DL1_2 with termi2 := lineC } }
  let s : ICSt := { s with DQ := { s.DQ with termi2 := lineC } }
  let s : ICSt := { s with DV := { s.DV with termi1 := lineC } }
  let s : ICSt := { s with DX1_2 := { s.DX1_2 with termi2 := lineC } }
  let s : ICSt := { s with CD := { s.CD with termi1 := notOut s.AD } }
  let lineD := nandOut s.CD
  let s : ICSt := { s with DA := { s.DA with termi2 := lineD } }
  let s : ICSt := { s with DD := { s.DD with termi2 := lineD } }
  let s : ICSt := { s with DH := { s.DH with termi2 := lineD } }
  let lineE := nandOut s.AA
  let s : ICSt := { s with DB := { s.DB with termi1 := lineE } }
  let s : ICSt := { s with DF := { s.DF with termi2 := lineE } }
  let s : ICSt := { s with DI := { s.DI with termi2 := lineE } }
  let s : ICSt := { s with DK := { s.DK with termi2 := lineE } }
  let s : ICSt := { s with CA := { s.CA with termi1 := lineE } }
  let s : ICSt := { s with CC := { s.CC with termi1 := nandOut s.AC } }
  let lineF := nandOut s.CC
  let s : ICSt := { s with DB := { s.DB with termi2 := lineF } }
  let s : ICSt := { s with DE1_2 := { s.DE1_2 with termi1 := lineF } }
  let s : ICSt := { s with DF1_2 := { s.DF1_2 with termi1 := lineF } }
  let s : ICSt := { s with DH := { s.DH with termi1 := lineF } }
  let s : ICSt := { s with DK1_2 := { s.DK1_2 with termi1 := lineF } }
  let s : ICSt := { s with DL1_2 := { s.DL1_2 with termi1 := lineF } }
  let s : ICSt := { s with DP := { s.DP with termi2 := lineF } }
  let s : ICSt := { s with DX1_2 := { s.DX1_2 with termi1 := lineF } }
  let lineG := nandOut s.CA
  let s : ICSt := { s with DC := { s.DC with termi2 := lineG } }
  let s : ICSt := { s with DE := { s.DE with termi2 := lineG } }
  let s : ICSt := { s with DJ := { s.DJ with termi2 := lineG } }
  let s : ICSt := { s with DL := { s.DL with termi2 := lineG } }
  let s : ICSt := { s with DQ := { s.DQ with termi1 := lineG } }
  let s : ICSt := { s with DW := { s.DW with termi2 := lineG } }
  let s : ICSt := { s with DX := { s.DX with termi2 := lineG } }
  let s : ICSt := { s with DM := { s.DM with termi1 := lineG } }
  let lineH := nandOut s.AB
  let s : ICSt := { s with DC3 := { s.DC3 with termi2 := lineH } }
  let s : ICSt := { s with DE1_2 := { s.DE1_2 with termi2 := lineH } }
  let s : ICSt := { s with DJ1_2 := { s.DJ1_2 with termi2 := lineH } }
  let s : ICSt := { s with DK1_2 := { s.DK1_2 with termi2 := lineH } }
  let s : ICSt := { s with DP := { s.DP with termi1 := lineH } }
  let s : ICSt := { s with DY := { s.DY with termi2 := lineH } }
  let lineI := nandOut s.AC
  let s : ICSt := { s with DC1_2 := { s.DC1_2 with termi2 := lineI } }
  let s : ICSt := { s with DI1_2 := { s.DI1_2 with termi1 := lineI } }
  let s : ICSt := { s with DJ1_2 := { s.DJ1_2 with termi1 := lineI } }
  let s : ICSt := { s with DV := { s.DV with termi2 := lineI } }
  let s : ICSt := { s with DW1_2 := { s.DW1_2 with termi2 := lineI } }
  let s : ICSt := { s with DY3 := { s.DY3 with termi2 := lineI } }
  let lineJ := notOut s.AD
  let s : ICSt := { s with DC1_2 := { s.DC1_2 with termi1 := lineJ } }
  let s : ICSt := { s with DW1_2 := { s.DW1_2 with termi1 := lineJ } }
  let s : ICSt := { s with DY1_2 := { s.DY1_2 with termi2 := lineJ } }
  let s : ICSt := { s with DC3 := { s.DC3 with termi1 := andOut s.DC1_2 } }
  let s : ICSt := { s with DC := { s.DC with termi1 := andOut s.DC3 } }
  let s : ICSt := { s with DE := { s.DE with termi1 := andOut s.DE1_2 } }
  let s : ICSt := { s with DF := { s.DF with termi1 := andOut s.DF1_2 } }
  let s : ICSt := { s with DI := { s.DI with termi1 := andOut s.DI1_2 } }
  let s : ICSt := { s with DJ := { s.DJ with termi1 := andOut s.DJ1_2 } }
  let s : ICSt := { s with DK := { s.DK with termi1 := andOut s.DK1_2 } }
  let s : ICSt := { s with DL := { s.DL with termi1 := andOut s.DL1_2 } }
  let s : ICSt := { s with DW := { s.DW with termi1 := andOut s.DW1_2 } }
  let s : ICSt := { s with DX := { s.DX with termi1 := andOut s.DX1_2 } }
  let s : ICSt := { s with DY3 := { s.DY3 with termi1 := andOut s.DY1_2 } }
  let s : ICSt := { s with DY := { s.DY with termi1 := andOut s.DY3 } }
  s

/-- Variant of IC7447.setUP with exactly one statement removed: the
self-referential reassignment of the blanking inverter input BA.termi1 to
the net lineB after lineB was captured from the BA output. Stated from the
spec for the refinement claim; every other statement is identical. -/
def IC7447.setUPNoReassign (s : ICSt) : ICSt :=
  let lineA := notOut s.AE
  let s : ICSt := { s with AA := { s.AA with termi2 := lineA } }
  let s : ICSt := { s with AB := { s.AB with termi2 := lineA } }
  let s : ICSt := { s with AC := { s.AC with termi2 := lineA } }
  let s : ICSt := { s with BB := { s.BB with termi1 := lineA } }
  let s : ICSt := { s with DY1_2 := { s.DY1_2 with termi1 := lineA } }
  let s : ICSt := { s with BB3 := { s.BB3 with termi1 := norOut s.BB1_2 } }
  let s : ICSt := { s with BB3 := { s.BB3 with termi2 := notOut s.AD } }
  let s : ICSt := { s with BB4 := { s.BB4 with termi1 := norOut s.BB3 } }
  let s : ICSt := { s with BB4 := { s.BB4 with termi2 := nandOut s.AC } }
  let s : ICSt := { s with BB5 := { s.BB5 with termi1 := norOut s.BB4 } }
  let s : ICSt := { s with BB5 := { s.BB5 with termi2 := nandOut s.AB } }
  let s : ICSt := { s with BB := { s.BB with termi1 := norOut s.BB5 } }
  let s : ICSt := { s with BB := { s.BB with termi2 := notOut s.AE } }
  let s : ICSt := { s with BA := { s.BA with termi1 := norOut s.BB } }
  let lineB := notOut s.BA
  let s : ICSt := { s with CA := { s.CA with termi2 := lineB } }
  let s : ICSt := { s with CB := { s.CB with termi2 := lineB } }
  let s : ICSt := { s with CC := { s.CC with termi2 := lineB } }
  let s : ICSt := { s with CD := { s.CD with termi2 := lineB } }
  let s : ICSt := { s with CB := { s.CB with termi1 := nandOut s.AB } }
  let lineC := nandOut s.CB
  let s : ICSt := { s with DA := { s.DA with termi1 := lineC } }
  let s : ICSt := { s with DD := { s.DD with termi1 := lineC } }
  let s : ICSt := { s with DF1_2 := { s.DF1_2 with termi2 := lineC } }
  let s : ICSt := { s with DI1_2 := { s.DI1_2 with termi2 := lineC } }
  let s : ICSt := { s with DL1_2 := { s.DL1_2 with termi2 := lineC } }
  let s : ICSt := { s with DQ := { s.DQ with termi2 := lineC } }
  let s : ICSt := { s with DV := { s.DV with termi1 := lineC } }
  let s : ICSt := { s with DX1_2 := { s.DX1_2 with termi2 := lineC } }
  let s : ICSt := { s with CD := { s.CD with termi1 := notOut s.AD } }
  let lineD := nandOut s.CD
  let s : ICSt := { s with DA := { s.DA with termi2 := lineD } }
  let s : ICSt := { s with DD := { s.DD with termi2 := lineD } }
  let s : ICSt := { s with DH := { s.DH with termi2 := lineD } }
  let lineE := nandOut s.AA
  let s : ICSt := { s with DB := { s.DB with termi1 := lineE } }
  let s : ICSt := { s with DF := { s.DF with termi2 := lineE } }
  let s : ICSt := { s with DI := { s.DI with termi2 := lineE } }
  let s : ICSt := { s with DK := { s.DK with termi2 := lineE } }
  let s : ICSt := { s with CA := { s.CA with termi1 := lineE } }
  let s : ICSt := { s with CC := { s.CC with termi1 := nandOut s.AC } }
  let lineF := nandOut s.CC
  let s : ICSt := { s with DB := { s.DB with termi2 := lineF } }
  let s : ICSt := { s with DE1_2 := { s.DE1_2 with termi1 := lineF } }
  let s : ICSt := { s with DF1_2 := { s.DF1_2 with termi1 := lineF } }
  let s : ICSt := { s with DH := { s.DH with termi1 := lineF } }
  let s : ICSt := { s with DK1_2 := { s.DK1_2 with termi1 := lineF } }
  let s : ICSt := { s with DL1_2 := { s.DL1_2 with termi1 := lineF } }
  let s : ICSt := { s with DP := { s.DP with termi2 := lineF } }
  let s : ICSt := { s with DX1_2 := { s.DX1_2 with termi1 := lineF } }
  let lineG := nandOut s.CA
  let s : ICSt := { s with DC := { s.DC with termi2 := lineG } }
  let s : ICSt := { s with DE := { s.DE with termi2 := lineG } }
  let s : ICSt := { s with DJ := { s.DJ with termi2 := lineG } }
  let s : ICSt := { s with DL := { s.DL with termi2 := lineG } }
  let s : ICSt := { s with DQ := { s.DQ with termi1 := lineG } }
  let s : ICSt := { s with DW := { s.DW with termi2 := lineG } }
  let s : ICSt := { s with DX := { s.DX with termi2 := lineG } }
  let s : ICSt := { s with DM := { s.DM with termi1 := lineG } }
  let lineH := nandOut s.AB
  let s : ICSt := { s with DC3 := { s.DC3 with termi2 := lineH } }
  let s : ICSt := { s with DE1_2 := { s.DE1_2 with termi2 := lineH } }
  let s : ICSt := { s with DJ1_2 := { s.DJ1_2 with termi2 := lineH } }
  let s : ICSt := { s with DK1_2 := { s.DK1_2 with termi2 := lineH } }
  let s : ICSt := { s with DP := { s.DP with termi1 := lineH } }
  let s : ICSt := { s with DY := { s.DY with termi2 := lineH } }
  let lineI := nandOut s.AC
  let s : ICSt := { s with DC1_2 := { s.DC1_2 with termi2 := lineI } }
  let s : ICSt := { s with DI1_2 := { s.DI1_2 with termi1 := lineI } }
  let s : ICSt := { s with DJ1_2 := { s.DJ1_2 with termi1 := lineI } }
  let s : ICSt := { s with DV := { s.DV with termi2 := lineI } }
  let s : ICSt := { s with DW1_2 := { s.DW1_2 with termi2 := lineI } }
  let s : ICSt := { s with DY3 := { s.DY3 with termi2 := lineI } }
  let lineJ := notOut s.AD
  let s : ICSt := { s with DC1_2 := { s.DC1_2 with termi1 := lineJ } }
  let s : ICSt := { s with DW1_2 := { s.DW1_2 with termi1 := lineJ } }
  let s : ICSt := { s with DY1_2 := { s.DY1_2 with termi2 := lineJ } }
  let s : ICSt := { s with DC3 := { s.DC3 with termi1 := andOut s.DC1_2 } }
  let s : ICSt := { s with DC := { s.DC with termi1 := andOut s.DC3 } }
  let s : ICSt := { s with DE := { s.DE with termi1 := andOut s.DE1_2 } }
  let s : ICSt := { s with DF := { s.DF with termi1 := andOut s.DF1_2 } }
  let s : ICSt := { s with DI := { s.DI with termi1 := andOut s.DI1_2 } }
  let s : ICSt := { s with DJ := { s.DJ with termi1 := andOut s.DJ1_2 } }
  let s : ICSt := { s with DK := { s.DK with termi1 := andOut s.DK1_2 } }
  let s : ICSt := { s with DL := { s.DL with termi1 := andOut s.DL1_2 } }
  let s : ICSt := { s with DW := { s.DW with termi1 := andOut s.DW1_2 } }
  let s : ICSt := { s with DX := { s.DX with termi1 := andOut s.DX1_2 } }
  let s : ICSt := { s with DY3 := { s.DY3 with termi1 := andOut s.DY1_2 } }
  let s : ICSt := { s with DY := { s.DY with termi1 := andOut s.DY3 } }
  s

/-- IC_7447.outputs: the final drive stage, one let per Python statement in
source order; the seven Section E OR gates combine the pre-driver outputs. -/
def IC7447.outputsStage (s : ICSt) : ICSt :=
  let s : ICSt := { s with EA1_2 := { s.EA1_2 with termi1 := andOut s.DC } }
  let s : ICSt := { s with EA1_2 := { s.EA1_2 with termi2 := andOut s.DB } }
  let s : ICSt := { s with EA := { s.EA with termi1 := orOut s.EA1_2 } }
  let s : ICSt := { s with EA := { s.EA with termi2 := andOut s.DA } }
  let s : ICSt := { s with EB1_2 := { s.EB1_2 with termi1 := andOut s.DF } }
  let s : ICSt := { s with EB1_2 := { s.EB1_2 with termi2 := andOut s.DE } }
  let s : ICSt := { s with EB := { s.EB with termi1 := orOut s.EB1_2 } }
  let s : ICSt := { s with EB := { s.EB with termi2 := andOut s.DD } }
  let s : ICSt := { s with EC := { s.EC with termi1 := andOut s.DH } }
  let s : ICSt := { s with EC := { s.EC with termi2 := andOut s.DI } }
  let s : ICSt := { s with ED1_2 := { s.ED1_2 with termi1 := andOut s.DL } }
  let s : ICSt := { s with ED1_2 := { s.ED1_2 with termi2 := andOut s.DK } }
  let s : ICSt := { s with ED := { s.ED with termi1 := orOut s.ED1_2 } }
  let s : ICSt := { s with ED := { s.ED with termi2 := andOut s.DJ } }
  let s : ICSt := { s with EE := { s.EE with termi1 := bufOut s.DM } }
  let s : ICSt := { s with EE := { s.EE with termi2 := andOut s.DP } }
  let s : ICSt := { s with EF1_2 := { s.EF1_2 with termi1 := andOut s.DW } }
  let s : ICSt := { s with EF1_2 := { s.EF1_2 with termi2 := andOut s.DV } }
  let s : ICSt := { s with EF := { s.EF with termi1 := orOut s.EF1_2 } }
  let s : ICSt := { s with EF := { s.EF with termi2 := andOut s.DQ } }
  let s : ICSt := { s with EH := { s.EH with termi1 := andOut s.DX } }
  let s : ICSt := { s with EH := { s.EH with termi2 := andOut s.DY } }
  s

/-- IC_7447.process, evaluated on a chip whose attributes hold the Boolean
rails pwr and gnd and the Boolean BCD inputs D, C, B, A, and whose pin
dictionary currently holds pins0 (all LOW right after construction; a
caller may have stored values into it before the call). When powered and
not grounded it runs interGates, inputs, setUP and outputs, writes the
seven segment driver outputs into Pin13, Pin12, Pin11, Pin10, Pin9, Pin15,
Pin14 and returns the pin dictionary; otherwise it returns the pin
dictionary unchanged. -/
def IC7447.process (pwr gnd D C B A : Bool) (pins0 : Pins) : Pins :=
  if pwr && !gnd then
    let s : ICSt := { pins := pins0 }
    let s := IC7447.interGates s
    let s := IC7447.inputs D C B A s
    let s := IC7447.setUP s
    let s := IC7447.outputsStage s
    let s : ICSt := { s with pins := { s.pins with pin13 := orOut s.EA } }
    let s : ICSt := { s with pins := { s.pins with pin12 := orOut s.EB } }
    let s : ICSt := { s with pins := { s.pins with pin11 := orOut s.EC } }
    let s : ICSt := { s with pins := { s.pins with pin10 := orOut s.ED } }
    let s : ICSt := { s with pins := { s.pins with pin9 := orOut s.EE } }
    let s : ICSt := { s with pins := { s.pins with pin15 := orOut s.EF } }
    let s : ICSt := { s with pins := { s.pins with pin14 := orOut s.EH } }
    s.pins
  else
    pins0

/-- IC_7447.process with the routing phase replaced by IC7447.setUPNoReassign;
all other stages are identical to IC7447.process. -/
def IC7447.processNoReassign (pwr gnd D C B A : Bool) (pins0 : Pins) : Pins :=
  if pwr && !gnd then
    let s : ICSt := { pins := pins0 }
    let s := IC7447.interGates s
    let s := IC7447.inputs D C B A s
    let s := IC7447.setUPNoReassign s
    let s := IC7447.outputsStage s
    let s : ICSt := { s with pins := { s.pins with pin13 := orOut s.EA } }
    let s : ICSt := { s with pins := { s.pins with pin12 := orOut s.EB } }
    let s : ICSt := { s with pins := { s.pins with pin11 := orOut s.EC } }
    let s : ICSt := { s with pins := { s.pins with pin10 := orOut s.ED } }
    let s : ICSt := { s with pins := { s.pins with pin9 := orOut s.EE } }
    let s : ICSt := { s with pins := { s.pins with pin15 := orOut s.EF } }
    let s : ICSt := { s with pins := { s.pins with pin14 := orOut s.EH } }
    s.pins
  else
    pins0

/-- Tuple of the seven segment output pins (a, b, c, d, e, f, g) =
(Pin13, Pin12, Pin11, Pin10, Pin9, Pin15, Pin14) of a pin map. -/
def IC7447.segments (r : Pins) :
    Bool × Bool × Bool × Bool × Bool × Bool × Bool :=
  (r.pin13, r.pin12, r.pin11, r.pin10, r.pin9, r.pin15, r.pin14)

/-- Bridge: on bool-valued terminals the PyVal-level gate outputs return ok
of the Bool-level outputs, for every gate kind used in the IC7447 netlist. -/
theorem boolLevel_bridge (n : Int) (a b : Bool) :
    OrGate.output ⟨n, .bool a, .bool b⟩ = .ok (orOut ⟨n, a, b⟩) ∧
    AndGate.output ⟨n, .bool a, .bool b⟩ = .ok (andOut ⟨n, a, b⟩) ∧
    NotGate.output ⟨n, .bool a, .bool b⟩ = .ok (notOut ⟨n, a, b⟩) ∧
    Buffer.output ⟨n, .bool a, .bool b⟩ = .ok (bufOut ⟨n, a, b⟩) ∧
    NOrGate.output ⟨n, .bool a, .bool b⟩ = .ok (norOut ⟨n, a, b⟩) ∧
    NAndGate.output ⟨n, .bool a, .bool b⟩ = .ok (nandOut ⟨n, a, b⟩) := by
  cases a <;> cases b <;> exact ⟨rfl, rfl, rfl, rfl, rfl, rfl⟩

/-- C1: with blanking inactive (nothing asserted on the control pins, the
pin map fresh from construction all LOW), a powered decoder (pwr true, gnd
false, 16 terminals) evaluated via process on BCD input D=C=B=A=LOW returns
the '0' segment pattern: Pin13, Pin12, Pin11, Pin10, Pin9 and Pin15 LOW
(segments a to f ON under the active-low convention) and Pin14 HIGH
(segment g OFF); and on D=HIGH, C=B=A=LOW it returns the '8' pattern: all
seven segment pins LOW. -/
theorem decoder_zero_and_eight_patterns :
    ((IC7447.process true false false false false false allLow).pin13 = false ∧
     (IC7447.process true false false false false false allLow).pin12 = false ∧
     (IC7447.process true false false false false false allLow).pin11 = false ∧
     (IC7447.process true false false false false false allLow).pin10 = false ∧
     (IC7447.process true false false false false false allLow).pin9 = false ∧
     (IC7447.process true false false false false false allLow).pin15 = false ∧
     (IC7447.process true false false false false false allLow).pin14 = true) ∧
    ((IC7447.process true false true false false false allLow).pin13 = false ∧
     (IC7447.process true false true false false false allLow).pin12 = false ∧
     (IC7447.process true false true false false false allLow).pin11 = false ∧
     (IC7447.process true false true false false false allLow).pin10 = false ∧
     (IC7447.process true false true false false false allLow).pin9 = false ∧
     (IC7447.process true false true false false false allLow).pin15 = false ∧
     (IC7447.process true false true false false false allLow).pin14 = false) := by
  decide

/-- C2: the claim states that asserting the datasheet blanking condition on
RBI and LT forces all seven segment pins to the OFF level regardless of the
BCD value. The code cannot do this: inputs() overwrites Pin3 (LT) and Pin5
(RBI) with LOW on every evaluation, so the blanking cascade always computes
lineB = HIGH and never suppresses the drivers. At the datasheet ripple
blanking condition (caller stores LT=HIGH, RBI=LOW, BCD value 0) the
returned pin map still carries the '0' digit pattern: six segment pins LOW
and Pin14 HIGH, which is neither all HIGH (OFF under the active-low
convention) nor all LOW. This theorem evaluates the code at that failing
input. -/
theorem blanking_assertion_has_no_effect :
    ((IC7447.process true false false false false false
        { allLow with pin3 := true, pin5 := false }).pin13 = false ∧
     (IC7447.process true false false false false false
        { allLow with pin3 := true, pin5 := false }).pin12 = false ∧
     (IC7447.process true false false false false false
        { allLow with pin3 := true, pin5 := false }).pin11 = false ∧
     (IC7447.process true false false false false false
        { allLow with pin3 := true, pin5 := false }).pin10 = false ∧
     (IC7447.process true false false false false false
        { allLow with pin3 := true, pin5 := false }).pin9 = false ∧
     (IC7447.process true false false false false false
        { allLow with pin3 := true, pin5 := false }).pin15 = false ∧
     (IC7447.process true false false false false false
        { allLow with pin3 := true, pin5 := false }).pin14 = true) := by
  decide

/-- C3: for every combination of BCD inputs, when pwr is false or gnd is
true, process skips the netlist evaluation and returns the pin map it was
given; on a freshly constructed chip that map is the all-LOW
terminal_identify map, so every declared entry Pin1..Pin16 is LOW. -/
theorem unpowered_process_returns_all_low
    (pwr gnd D C B A : Bool) (h : pwr = false ∨ gnd = true) :
    IC7447.process pwr gnd D C B A allLow = allLow := by
  rcases h with h | h
  · subst h; rfl
  · subst h; cases pwr <;> rfl

/-- Witness for unpowered_process_returns_all_low at pwr = false, gnd =
false, D = C = B = A = false. -/
theorem unpowered_process_returns_all_low_witness :
    ((false = false ∨ false = true) ∧
     IC7447.process false false false false false false allLow = allLow) :=
  ⟨Or.inl rfl,
   unpowered_process_returns_all_low false false false false false false
     (Or.inl rfl)⟩

/-- C4: evaluation is deterministic: two evaluations of process on
identical power, ground, BCD inputs and identical pin-map state (which is
where any control-pin values live) return bit-identical pin maps. The
embedded evaluation is a pure function, so the two-run equality holds
definitionally. -/
theorem process_two_run_determinism
    (pwr gnd D C B A : Bool) (pins0 : Pins) :
    IC7447.process pwr gnd D C B A pins0 =
      IC7447.process pwr gnd D C B A pins0 := rfl

/-- C5: every gate variant matches its canonical truth table: on Boolean
terminals a and b the outputs are AND, OR, NOR, NAND and XNOR of a and b,
and on a single Boolean terminal x the NOT output is the negation and the
Buffer output is x itself (for NOT and Buffer the second terminal sits at
the constructor default LOW). -/
theorem gate_truth_tables (n : Int) (a b x : Bool) :
    AndGate.output ⟨n, .bool a, .bool b⟩ = .ok (a && b) ∧
    OrGate.output ⟨n, .bool a, .bool b⟩ = .ok (a || b) ∧
    NOrGate.output ⟨n, .bool a, .bool b⟩ = .ok (!(a || b)) ∧
    NAndGate.output ⟨n, .bool a, .bool b⟩ = .ok (!(a && b)) ∧
    XNOrGate.output ⟨n, .bool a, .bool b⟩ = .ok (a == b) ∧
    NotGate.output ⟨n, .bool x, .bool false⟩ = .ok (!x) ∧
    Buffer.output ⟨n, .bool x, .bool false⟩ = .ok x := by
  cases a <;> cases b <;> cases x <;>
    exact ⟨rfl, rfl, rfl, rfl, rfl, rfl, rfl⟩

/-- C6: the non-standard XNAND variant is extensionally identical to NAND
on all four Boolean input combinations; the degeneracy is preserved in the
source (the two output bodies are the same) rather than corrected. -/
theorem xnand_coincides_with_nand (n : Int) (a b : Bool) :
    XNAndGate.output ⟨n, .bool a, .bool b⟩ =
      NAndGate.output ⟨n, .bool a, .bool b⟩ := rfl

/-- C7: for every gate variant, construction with a non-Boolean value in an
exposed terminal raises the type-mismatch error, and a gate whose exposed
terminal has been mutated to a non-Boolean value raises the error on the
next output() call instead of returning a value; the check runs both at
construction and at every output() evaluation. Two-input variants are
checked in both terminal slots; NOT and Buffer expose only terminal one. -/
theorem gate_type_enforcement (n : Int) (v : PyVal)
    (hv : isBool v = false) (b : Bool) :
    isErr (OrGate.init n v (.bool b)) = true ∧
    isErr (OrGate.init n (.bool b) v) = true ∧
    isErr (AndGate.init n v (.bool b)) = true ∧
    isErr (AndGate.init n (.bool b) v) = true ∧
    isErr (NOrGate.init n v (.bool b)) = true ∧
    isErr (NOrGate.init n (.bool b) v) = true ∧
    isErr (NAndGate.init n v (.bool b)) = true ∧
    isErr (NAndGate.init n (.bool b) v) = true ∧
    isErr (XNOrGate.init n v (.bool b)) = true ∧
    isErr (XNOrGate.init n (.bool b) v) = true ∧
    isErr (XNAndGate.init n v (.bool b)) = true ∧
    isErr (XNAndGate.init n (.bool b) v) = true ∧
    isErr (NotGate.init n v) = true ∧
    isErr (Buffer.init n v) = true ∧
    isErr (OrGate.output ⟨n, v, .bool b⟩) = true ∧
    isErr (OrGate.output ⟨n, .bool b, v⟩) = true ∧
    isErr (AndGate.output ⟨n, v, .bool b⟩) = true ∧
    isErr (AndGate.output ⟨n, .bool b, v⟩) = true ∧
    isErr (NOrGate.output ⟨n, v, .bool b⟩) = true ∧
    isErr (NOrGate.output ⟨n, .bool b, v⟩) = true ∧
    isErr (NAndGate.output ⟨n, v, .bool b⟩) = true ∧
    isErr (NAndGate.output ⟨n, .bool b, v⟩) = true ∧
    isErr (XNOrGate.output ⟨n, v, .bool b⟩) = true ∧
    isErr (XNOrGate.output ⟨n, .bool b, v⟩) = true ∧
    isErr (XNAndGate.output ⟨n, v, .bool b⟩) = true ∧
    isErr (XNAndGate.output ⟨n, .bool b, v⟩) = true ∧
    isErr (NotGate.output ⟨n, v, .bool b⟩) = true ∧
    isErr (Buffer.output ⟨n, v, .bool b⟩) = true := by
  cases v with
  | bool c => simp [isBool, typeOf] at hv
  | none =>
      exact ⟨rfl, rfl, rfl, rfl, rfl, rfl, rfl, rfl, rfl, rfl, rfl, rfl,
        rfl, rfl, rfl, rfl, rfl, rfl, rfl, rfl, rfl, rfl, rfl, rfl, rfl,
        rfl, rfl, rfl⟩
  | int m =>
      exact ⟨rfl, rfl, rfl, rfl, rfl, rfl, rfl, rfl, rfl, rfl, rfl, rfl,
        rfl, rfl, rfl, rfl, rfl, rfl, rfl, rfl, rfl, rfl, rfl, rfl, rfl,
        rfl, rfl, rfl⟩
  | str t =>
      exact ⟨rfl, rfl, rfl, rfl, rfl, rfl, rfl, rfl, rfl, rfl, rfl, rfl,
        rfl, rfl, rfl, rfl, rfl, rfl, rfl, rfl, rfl, rfl, rfl, rfl, rfl,
        rfl, rfl, rfl⟩

/-- Witness for gate_type_enforcement at the non-Boolean value 5 (an int). -/
theorem gate_type_enforcement_witness :
    (isBool (PyVal.int 5) = false ∧
     isErr (OrGate.init 1 (PyVal.int 5) (PyVal.bool false)) = true) :=
  ⟨by decide, (gate_type_enforcement 1 (PyVal.int 5) (by decide) false).1⟩

/-- C8: the claim states that constructing an IC, or the concrete IC_7447,
with a non-Boolean pwr or gnd fails with the type-mismatch error. The code
violates the pwr half: IC.typechecker evaluates the Python expression
type(para1) and type(para2) == bool, which by operator precedence is the
always-truthy class object type(para1) conjoined with the gnd check, so a
non-Boolean pwr is accepted whenever gnd is Boolean. This theorem evaluates
the constructors at the failing input: construction with pwr the string "1"
and gnd False succeeds for both IC and IC_7447, while a non-Boolean gnd is
still rejected and an all-Boolean construction succeeds. -/
theorem ic_init_accepts_nonbool_pwr :
    IC.init (PyVal.str "1") (PyVal.bool false) 16 =
      .ok ⟨PyVal.str "1", PyVal.bool false, 16⟩ ∧
    IC7447.initObj (PyVal.str "1") (PyVal.bool false) 16
        (PyVal.bool false) (PyVal.bool false) (PyVal.bool false)
        (PyVal.bool false) =
      .ok ⟨⟨PyVal.str "1", PyVal.bool false, 16⟩, PyVal.bool false,
        PyVal.bool false, PyVal.bool false, PyVal.bool false⟩ ∧
    isErr (IC.init (PyVal.bool true) (PyVal.int 0) 16) = true ∧
    IC.init (PyVal.bool true) (PyVal.bool false) 16 =
      .ok ⟨PyVal.bool true, PyVal.bool false, 16⟩ :=
  ⟨rfl, rfl, rfl, rfl⟩

/-- C9: deleting the self-referential reassignment of BA.termi1 to lineB
(the last statement of the lineB distribution block in setUP) does not
change the pin map process returns, for every input combination
(pwr, gnd, D, C, B, A) evaluated on the freshly constructed all-LOW pin
map: the reassigned terminal is never read again during the evaluation, so
the statement is observationally a no-op. -/
theorem ba_reassignment_is_noop : ∀ (pwr gnd D C B A : Bool),
    IC7447.processNoReassign pwr gnd D C B A allLow =
      IC7447.process pwr gnd D C B A allLow := by decide

/-- C10: on every powered evaluation, inputs() unconditionally overwrites
Pin3 (Lamp Test) and Pin5 (Ripple Blanking Input) with LOW before any
routing, so these two pins hold LOW in every pin map process returns, and
whatever values a caller stores in them before evaluation has no influence
on any segment output pin. -/
theorem control_pins_forced_low
    (D C B A : Bool) (p : Pins) (v3 v5 : Bool) :
    (IC7447.process true false D C B A p).pin3 = false ∧
    (IC7447.process true false D C B A p).pin5 = false ∧
    IC7447.segments
        (IC7447.process true false D C B A { p with pin3 := v3, pin5 := v5 }) =
      IC7447.segments (IC7447.process true false D C B A p) :=
  ⟨rfl, rfl, rfl⟩
